import Mathlib

/-!
Verification development for the tikapy MikroTik RouterOS API client
(src/tikapy/__init__.py).

The development shallowly embeds the parts of the client that the
specification talks about:

* a small universe `PyVal` of Python values (strings, integers, lists,
  tuples, dictionaries, None) together with the pieces of Python
  semantics that `TikapyBaseClient.tik_to_json` relies on
  (subscripting, slicing, iteration, `dict` construction with
  last-write-wins and first-appearance key order, and the exceptions
  IndexError / KeyError / TypeError / AttributeError);
* the normalization function `tik_to_json` itself, translated
  statement by statement including its two `try/except` blocks;
* the connection lifecycle: the port setter, `_connect_socket`
  iterating over resolver candidates, the SSL `_connect` of
  `TikapySslClient` (handshake outcome supplied by the environment),
  the SSL context configuration on both host-OS branches, `login`
  (with the engine modelled as an oracle and its invocations recorded
  as a trace), and `talk` input validation.

Error kinds are the exception classes of the code itself: the spec
taxonomy names map as ConfigError and InvalidArgument to the
ValueError raised by the code, ConnectError and ClientError to the
ClientError class of the code.
-/

/-- Python exceptions that the embedded code can raise or catch. -/
inductive PyExc where
  | typeError
  | indexError
  | keyError
  | attributeError
  | valueError (msg : String)
  | clientError (msg : String)
  | apiError
  | apiUnrecoverableError
deriving DecidableEq, Repr

/-- Python values, restricted to the shapes MikroTik API output and
`tik_to_json` inputs can take. -/
inductive PyVal where
  | str (s : String)
  | int (n : Int)
  | pynone
  | list (xs : List PyVal)
  | tuple (xs : List PyVal)
  | dict (entries : List (PyVal × PyVal))

mutual
/-- Python structural equality on `PyVal` (Python `==` restricted to
these shapes, where it coincides with structural equality). -/
def pyEq : PyVal → PyVal → Bool
  | .str a, .str b => a == b
  | .int a, .int b => a == b
  | .pynone, .pynone => true
  | .list xs, .list ys => pyEqList xs ys
  | .tuple xs, .tuple ys => pyEqList xs ys
  | .dict xs, .dict ys => pyEqPairs xs ys
  | _, _ => false
/-- Elementwise `pyEq` on lists. -/
def pyEqList : List PyVal → List PyVal → Bool
  | [], [] => true
  | x :: xs, y :: ys => pyEq x y && pyEqList xs ys
  | _, _ => false
/-- Elementwise `pyEq` on key-value pair lists. -/
def pyEqPairs : List (PyVal × PyVal) → List (PyVal × PyVal) → Bool
  | (a, b) :: ps, (c, d) :: qs => pyEq a c && pyEq b d && pyEqPairs ps qs
  | [], [] => true
  | _, _ => false
end

mutual
/-- Whether a value may be used as a Python `dict` key (hashable). -/
def hashable : PyVal → Bool
  | .str _ => true
  | .int _ => true
  | .pynone => true
  | .tuple xs => hashableList xs
  | .list _ => false
  | .dict _ => false
/-- All elements hashable. -/
def hashableList : List PyVal → Bool
  | [] => true
  | x :: xs => hashable x && hashableList xs
end

/-- Python sequence indexing semantics (negative indices count from the
end; out of range raises IndexError). -/
def pyIndex (xs : List PyVal) (i : Int) : Except PyExc PyVal :=
  let j := if i < 0 then i + xs.length else i
  if j < 0 then .error .indexError
  else
    match xs.get? j.toNat with
    | some x => .ok x
    | Option.none => .error .indexError

/-- Python subscripting `container[key]`: integer indexing on strings,
lists and tuples, key lookup on dicts; TypeError otherwise, exactly as
CPython raises them. -/
def getItem : PyVal → PyVal → Except PyExc PyVal
  | .str s, .int i =>
      match pyIndex (s.data.map fun c => .str (String.mk [c])) i with
      | .ok v => .ok v
      | .error e => .error e
  | .str _, _ => .error .typeError
  | .list xs, .int i => pyIndex xs i
  | .list _, _ => .error .typeError
  | .tuple xs, .int i => pyIndex xs i
  | .tuple _, _ => .error .typeError
  | .dict entries, k =>
      if hashable k then
        match entries.find? fun p => pyEq p.1 k with
        | some p => .ok p.2
        | Option.none => .error .keyError
      else .error .typeError
  | .int _, _ => .error .typeError
  | .pynone, _ => .error .typeError

/-- Python slicing `v[1:]` as used by `tik_to_json` on the `.id`
attribute value. -/
def slice1 : PyVal → Except PyExc PyVal
  | .str s => .ok (.str (s.drop 1))
  | .list xs => .ok (.list (xs.drop 1))
  | .tuple xs => .ok (.tuple (xs.drop 1))
  | .dict _ => .error .typeError
  | .int _ => .error .typeError
  | .pynone => .error .typeError

/-- Python iteration `for x in v`: lists and tuples yield elements,
strings yield one-character strings, dicts yield keys; TypeError for
non-iterables. -/
def pyIter : PyVal → Except PyExc (List PyVal)
  | .list xs => .ok xs
  | .tuple xs => .ok xs
  | .str s => .ok (s.data.map fun c => .str (String.mk [c]))
  | .dict entries => .ok (entries.map fun p => p.1)
  | .int _ => .error .typeError
  | .pynone => .error .typeError

/-- Python attribute-guarded key test, modelling the expression
`'.id' in d.keys()`: on a dict it is a membership test, on anything
else `.keys` raises AttributeError. -/
def hasIdKey : PyVal → Except PyExc Bool
  | .dict entries => .ok (entries.any fun p => pyEq p.1 (.str ".id"))
  | _ => .error .attributeError

/-- Python dict insertion: an existing (structurally equal) key keeps
its original key object and position and gets the new value; a fresh
key is appended at the end. -/
def dictInsert (entries : List (PyVal × PyVal)) (k v : PyVal) :
    List (PyVal × PyVal) :=
  if entries.any fun q => pyEq q.1 k then
    entries.map fun q => if pyEq q.1 k then (q.1, v) else q
  else entries ++ [(k, v)]

/-- First try block of `tik_to_json`: evaluate
`tikoutput[0][0] == '!done'` and, when true, `tikoutput[0][1]['ret']`.
Returns `some v` for the scalar short-circuit, `none` when the tag
comparison was false, and propagates any Python exception raised. -/
def scalarStep (t : PyVal) : Except PyExc (Option PyVal) :=
  match getItem t (.int 0) with
  | .error e => .error e
  | .ok r0 =>
    match getItem r0 (.int 0) with
    | .error e => .error e
    | .ok tag =>
      if pyEq tag (.str "!done") then
        match getItem r0 (.int 1) with
        | .error e => .error e
        | .ok attrs =>
          match getItem attrs (.str "ret") with
          | .error e => .error e
          | .ok v => .ok (some v)
      else .ok Option.none

/-- Inner list comprehension `[x[1] for x in tikoutput]` applied to an
already-obtained iteration list: evaluates left to right and raises
the first exception encountered. -/
def secondOfEach : List PyVal → Except PyExc (List PyVal)
  | [] => .ok []
  | x :: rest =>
    match getItem x (.int 1) with
    | .error e => .error e
    | .ok y =>
      match secondOfEach rest with
      | .error e => .error e
      | .ok ys => .ok (y :: ys)

/-- Dict comprehension
`{ d['.id'][1:] : d for d in ds if '.id' in d.keys() }` run over the
record list `ds` with accumulator `acc`: per element it evaluates the
filter, then the key expression, then inserts; an unhashable key
raises TypeError as CPython does. -/
def buildIdDict (acc : List (PyVal × PyVal)) :
    List PyVal → Except PyExc (List (PyVal × PyVal))
  | [] => .ok acc
  | d :: rest =>
    match hasIdKey d with
    | .error e => .error e
    | .ok b =>
      if b then
        match getItem d (.str ".id") with
        | .error e => .error e
        | .ok idv =>
          match slice1 idv with
          | .error e => .error e
          | .ok k =>
            if hashable k then buildIdDict (dictInsert acc k d) rest
            else .error .typeError
      else buildIdDict acc rest

/-- Body of the second try block of `tik_to_json`: the dict
comprehension over `[x[1] for x in tikoutput]`. -/
def mappingStep (t : PyVal) : Except PyExc PyVal :=
  match pyIter t with
  | .error e => .error e
  | .ok xs =>
    match secondOfEach xs with
    | .error e => .error e
    | .ok ds =>
      match buildIdDict [] ds with
      | .error e => .error e
      | .ok es => .ok (.dict es)

/-- Second try block of `tik_to_json` with its `except (TypeError,
IndexError)` handler re-raising ClientError. -/
def tikMapping (t : PyVal) : Except PyExc PyVal :=
  match mappingStep t with
  | .ok r => .ok r
  | .error .typeError =>
      .error (.clientError "unable to convert api output to json")
  | .error .indexError =>
      .error (.clientError "unable to convert api output to json")
  | .error e => .error e

/-- `TikapyBaseClient.tik_to_json`: the scalar short-circuit whose
IndexError and KeyError are swallowed by `except (IndexError,
KeyError): pass`, then the mapping step. -/
def tik_to_json (t : PyVal) : Except PyExc PyVal :=
  match scalarStep t with
  | .ok (some v) => .ok v
  | .ok Option.none => tikMapping t
  | .error .indexError => tikMapping t
  | .error .keyError => tikMapping t
  | .error e => .error e

example : tik_to_json (.list [.tuple [.str "!done", .dict [(.str "ret", .str "42")]]])
    = .ok (.str "42") := by rfl

example : tik_to_json (.list [.int 5]) = .error .typeError := by rfl

example : tik_to_json (.list [.tuple [.str "!re", .str "ab"]])
    = .error .attributeError := by rfl

example : tik_to_json (.list [])
    = .ok (.dict []) := by rfl

example : tik_to_json
    (.list [.tuple [.str "!re", .dict [(.str ".id", .str "*1"), (.str "name", .str "eth0")]],
            .tuple [.str "!re", .dict [(.str ".id", .str "*2"), (.str "name", .str "eth1")]],
            .tuple [.str "!done", .dict []]])
    = .ok (.dict [(.str "1", .dict [(.str ".id", .str "*1"), (.str "name", .str "eth0")]),
                  (.str "2", .dict [(.str ".id", .str "*2"), (.str "name", .str "eth1")])]) := by rfl

example : tik_to_json (.list [.tuple [.str "!re", .dict [(.str "foo", .str "bar")]],
                               .tuple [.str "!done", .dict []]])
    = .ok (.dict []) := by rfl

/-! ## Connection lifecycle embedding -/

/-- A socket object held by the client: whether it is an
`ssl.SSLSocket` (and hence has a `getpeercert` attribute) and whether
it is still open. -/
structure Sock where
  tls : Bool
  isOpen : Bool
deriving DecidableEq, Repr

/-- Instance state of `TikapyBaseClient`: `_address`, `_port`,
`_base_sock` and `_sock`. -/
structure SessionState where
  address : Option String
  port : Option Int
  base_sock : Option Sock
  sock : Option Sock
deriving DecidableEq, Repr

/-- Python truthiness of the stored address (`if not self.address`). -/
def truthyStr : Option String → Bool
  | Option.none => false
  | some s => !s.isEmpty

/-- Python truthiness of the stored port (`if not self.port`). -/
def truthyInt : Option Int → Bool
  | Option.none => false
  | some n => n != 0

/-- The port setter of `TikapyBaseClient`: validates
`0 < value < 65536`, stores the port on success, and re-raises the
range failure as `ValueError('invalid port number specified')`,
leaving the state untouched. -/
def port_setter (st : SessionState) (value : Int) :
    Except PyExc Unit × SessionState :=
  if 0 < value ∧ value < 65536 then (.ok (), { st with port := some value })
  else (.error (.valueError "invalid port number specified"), st)

/-- One resolver candidate from `socket.getaddrinfo`, together with
the environment-determined outcome of creating a socket for it and of
connecting that socket. -/
structure Candidate where
  create_ok : Bool
  connect_ok : Bool
deriving DecidableEq, Repr

/-- A candidate on which both socket creation and connect succeed. -/
def candGood (c : Candidate) : Bool := c.create_ok && c.connect_ok

/-- The `for family, ... in socket.getaddrinfo(...)` loop of
`_connect_socket`: per candidate, socket creation failure resets
`_base_sock` to None and continues; connect failure closes the socket,
resets `_base_sock` to None and continues; the first full success
breaks. Returns the list of candidates actually tried and the final
value of `_base_sock`. -/
def connect_socket_loop : List Candidate → Option Sock →
    List Candidate × Option Sock
  | [], base => ([], base)
  | c :: rest, _ =>
    if !c.create_ok then
      let r := connect_socket_loop rest Option.none
      (c :: r.1, r.2)
    else if !c.connect_ok then
      let r := connect_socket_loop rest Option.none
      (c :: r.1, r.2)
    else ([c], some { tls := false, isOpen := true })

/-- `TikapyBaseClient._connect_socket`: checks address and port
truthiness, runs the candidate loop, and raises
`ClientError('could not open socket')` if `_base_sock` ended up None.
Returns the outcome, the post state and the list of tried
candidates. -/
def connect_socket (st : SessionState) (cands : List Candidate) :
    Except PyExc Unit × SessionState × List Candidate :=
  if !truthyStr st.address then
    (.error (.clientError "address has not been set"), st, [])
  else if !truthyInt st.port then
    (.error (.clientError "address has not been set"), st, [])
  else
    let r := connect_socket_loop cands st.base_sock
    let st2 := { st with base_sock := r.2 }
    match r.2 with
    | Option.none => (.error (.clientError "could not open socket"), st2, r.1)
    | some _ => (.ok (), st2, r.1)

/-- `TikapyBaseClient._connect`: plain variant, `_sock` becomes the
base socket itself. -/
def plain_connect (st : SessionState) (cands : List Candidate) :
    Except PyExc Unit × SessionState :=
  match connect_socket st cands with
  | (.error e, st2, _) => (.error e, st2)
  | (.ok _, st2, _) => (.ok (), { st2 with sock := st2.base_sock })

/-- SSL certificate verification modes of the `ssl` module. -/
inductive VerifyMode where
  | cert_required
  | cert_optional
  | cert_none
deriving DecidableEq, Repr

/-- The observable configuration of an `ssl.SSLContext` as set up by
`TikapySslClient._connect`. -/
structure SSLContext where
  verify_mode : VerifyMode
  check_hostname : Bool
  ciphers : String
deriving DecidableEq, Repr

/-- `ssl.create_default_context()`: certificate chain and hostname
verification enabled, default cipher list. -/
def create_default_context : SSLContext :=
  { verify_mode := .cert_required, check_hostname := true,
    ciphers := "DEFAULT" }

/-- The context configuration performed by `TikapySslClient._connect`,
with `isWindowsHost` standing for
`(os.name == "nt") and ("win" in sys.platform)`. -/
def ssl_client_context (isWindowsHost verify_cert verify_addr : Bool) :
    SSLContext :=
  if isWindowsHost then
    let ctx := create_default_context
    let ctx := if !verify_cert then { ctx with verify_mode := .cert_optional }
               else ctx
    let ctx := if !verify_addr then { ctx with check_hostname := false }
               else ctx
    { ctx with ciphers := "ADH:@SECLEVEL=0" }
  else
    { create_default_context with
        verify_mode := .cert_optional, check_hostname := false,
        ciphers := "ADH" }

/-- `TikapySslClient._connect`: connect the base socket, then wrap it
with the configured context; `handshake_ok` is the
environment-determined outcome of `ctx.wrap_socket`. On an
`ssl.SSLError` the code raises
`ClientError('could not establish SSL connection')` without touching
`_base_sock` or `_sock`. -/
def ssl_connect (st : SessionState) (cands : List Candidate)
    (handshake_ok : Bool) : Except PyExc Unit × SessionState :=
  match connect_socket st cands with
  | (.error e, st2, _) => (.error e, st2)
  | (.ok _, st2, _) =>
    if handshake_ok then
      (.ok (), { st2 with sock := some { tls := true, isOpen := true } })
    else
      (.error (.clientError "could not establish SSL connection"), st2)

/-- One recorded invocation of the Protocol Engine's login
(`ApiRos.login`). -/
structure EngineLoginCall where
  user : String
  password : String
  send_plain_password : Bool
deriving DecidableEq, Repr

/-- Whether a socket object has a `getpeercert` attribute:
`ssl.SSLSocket` has one, a plain `socket.socket` does not. -/
def hasattr_getpeercert (s : Sock) : Bool := s.tls

/-- The post-connect body of `TikapyBaseClient.login`: computes
`socket_is_tls` and `send_plain_password`, invokes the engine login
(an oracle), and translates `ApiError` / `ApiUnrecoverableError` into
`ClientError('could not login')`. Returns the outcome together with
the recorded engine invocations. -/
def login (sock : Sock) (user password : String)
    (allow_insecure_auth_without_tls : Bool)
    (engineLogin : String → String → Bool → Except PyExc Unit) :
    Except PyExc Unit × List EngineLoginCall :=
  let socket_is_tls := hasattr_getpeercert sock
  let send_plain_password :=
    socket_is_tls || allow_insecure_auth_without_tls
  let calls := [⟨user, password, send_plain_password⟩]
  match engineLogin user password send_plain_password with
  | .ok _ => (.ok (), calls)
  | .error .apiError => (.error (.clientError "could not login"), calls)
  | .error .apiUnrecoverableError =>
      (.error (.clientError "could not login"), calls)
  | .error e => (.error e, calls)

/-- String test used by `talk` input validation
(`isinstance(x, str)`). -/
def isStr : PyVal → Bool
  | .str _ => true
  | _ => false

/-- Underlying string of a string value (total helper; only applied
under `isStr`). -/
def asStr : PyVal → String
  | .str s => s
  | _ => ""

/-- `TikapyBaseClient.talk`: validates that `words` is a list of
strings before any I/O, delegates to the Protocol Engine's talk (an
oracle), translates engine errors into
`ClientError('could not talk to api')`, and normalizes the output
through `tik_to_json`. Returns the outcome together with the recorded
engine invocations. -/
def talk (engineTalk : List String → Except PyExc PyVal) (words : PyVal) :
    Except PyExc PyVal × List (List String) :=
  match words with
  | .list xs =>
    if xs.all isStr then
      let ws := xs.map asStr
      match engineTalk ws with
      | .ok out => (tik_to_json out, [ws])
      | .error .apiError =>
          (.error (.clientError "could not talk to api"), [ws])
      | .error .apiUnrecoverableError =>
          (.error (.clientError "could not talk to api"), [ws])
      | .error e => (.error e, [ws])
    else (.error (.valueError "words needs to be a list of strings"), [])
  | _ => (.error (.valueError "words needs to be a list of strings"), [])

/-! ## Well-shaped protocol sentences

A well-shaped sentence, as produced by the Protocol Engine, is a list
of records; a record is a pair of a tag string and an attribute
mapping from strings to strings. These are injected into `PyVal` for
feeding `tik_to_json`. -/

/-- Attribute record of a reply: attribute name to value. -/
abbrev Attrs := List (String × String)

/-- A sentence: ordered records of tag and attribute mapping. -/
abbrev Sentence := List (String × Attrs)

/-- Inject an attribute record into `PyVal`. -/
def attrsToPy (a : Attrs) : PyVal :=
  .dict (a.map fun p => (.str p.1, .str p.2))

/-- Inject a record into `PyVal` (the engine yields tag-attrs
tuples). -/
def recordToPy (r : String × Attrs) : PyVal :=
  .tuple [.str r.1, attrsToPy r.2]

/-- Inject a sentence into `PyVal`. -/
def sentenceToPy (s : Sentence) : PyVal :=
  .list (s.map recordToPy)

/-- First binding of a key in an attribute record. -/
def alookup (a : Attrs) (k : String) : Option String :=
  (a.find? fun p => p.1 == k).map fun p => p.2

/-- Modelled from the spec, section 4.4 step 2: every record that has
a `.id` attribute contributes the pair of that attribute's value with
its first character stripped and the full attribute record, in
sentence order; records lacking `.id` are excluded. -/
def specAssoc (s : Sentence) : List (String × Attrs) :=
  s.filterMap fun r => (alookup r.2 ".id").map fun idv => (idv.drop 1, r.2)

/-- Inject a spec-level key-attrs pair into `PyVal`. -/
def specPairPy (p : String × Attrs) : PyVal × PyVal :=
  (.str p.1, attrsToPy p.2)

/-- The dict entries `tik_to_json` actually builds for a well-shaped
sentence: Python dict insertion folded over the contributed pairs. -/
def tikEntries (s : Sentence) : List (PyVal × PyVal) :=
  ((specAssoc s).map specPairPy).foldl (fun a p => dictInsert a p.1 p.2) []

/-- The sentence is not taken by the scalar short-circuit: it is
empty, or its first record is not tagged with the done tag, or that
record has no `ret` attribute. -/
def notScalar (s : Sentence) : Prop :=
  match s with
  | [] => True
  | r :: _ => r.1 ≠ "!done" ∨ alookup r.2 "ret" = Option.none

/-- Value bound to a key in a built dict: the first (and for dicts
built by `dictInsert`, only) entry with a structurally equal key. -/
def assocFind (entries : List (PyVal × PyVal)) (k : PyVal) :
    Option PyVal :=
  (entries.find? fun p => pyEq p.1 k).map fun p => p.2

/-- Modelled from the spec reading of duplicate identifiers: the
attribute record of the last contributed pair whose key equals `k`. -/
def lastBinding (ps : List (PyVal × PyVal)) (k : PyVal) : Option PyVal :=
  (ps.reverse.find? fun p => pyEq p.1 k).map fun p => p.2

/-- Modelled from the spec wording on key order: each key keeps the
position of its first appearance. -/
def firstKeys (ks : List PyVal) : List PyVal :=
  ks.foldl (fun acc k => if acc.any fun j => pyEq j k then acc else acc ++ [k])
    []

/-- A freshly configured session used to exercise the lifecycle
operations on concrete inputs. -/
def exampleState : SessionState :=
  { address := some "router.local", port := some 8728,
    base_sock := Option.none, sock := Option.none }

/-! ## Lawfulness of the structural equality -/

lemma pyEq_lawful_mutual :
    (∀ a b, pyEq a b = true ↔ a = b) ∧
    (∀ ps qs, pyEqPairs ps qs = true ↔ ps = qs) ∧
    (∀ xs ys, pyEqList xs ys = true ↔ xs = ys) := by
  refine pyEq.mutual_induct (fun a b => pyEq a b = true ↔ a = b)
    (fun ps qs => pyEqPairs ps qs = true ↔ ps = qs)
    (fun xs ys => pyEqList xs ys = true ↔ xs = ys)
    ?_ ?_ ?_ ?_ ?_ ?_ ?_ ?_ ?_ ?_ ?_ ?_ ?_
  · intro a b; simp [pyEq]
  · intro a b; simp [pyEq]
  · simp [pyEq]
  · intro xs ys ih; simp [pyEq, ih]
  · intro xs ys ih; simp [pyEq, ih]
  · intro xs ys ih; simp [pyEq, ih]
  · intro t x h1 h2 h3 h4 h5 h6
    cases t <;> cases x <;>
      first
        | exact absurd rfl (fun h => h1 _ _ h rfl)
        | exact absurd rfl (fun h => h2 _ _ h rfl)
        | exact absurd rfl (fun h => h3 h rfl)
        | exact absurd rfl (fun h => h4 _ _ h rfl)
        | exact absurd rfl (fun h => h5 _ _ h rfl)
        | exact absurd rfl (fun h => h6 _ _ h rfl)
        | simp [pyEq]
  · simp [pyEqList]
  · intro x xs y ys ih1 ih2; simp [pyEqList, ih1, ih2]
  · intro t x h1 h2
    cases t <;> cases x <;>
      first
        | exact absurd rfl (fun h => h1 h rfl)
        | exact absurd rfl (fun h => h2 _ _ _ _ h rfl)
        | simp [pyEqList]
  · intro a b ps c d qs ih1 ih2 ih3
    simp [pyEqPairs, ih1, ih2, ih3]
  · simp [pyEqPairs]
  · intro t x h1 h2
    cases t <;> cases x <;>
      first
        | exact absurd rfl (fun h => h2 h rfl)
        | (rename_i p ps q qs; obtain ⟨a, b⟩ := p; obtain ⟨c, d⟩ := q;
           exact absurd rfl (fun h => h1 _ _ _ _ _ _ h rfl))
        | simp [pyEqPairs]

lemma pyEq_iff (a b : PyVal) : pyEq a b = true ↔ a = b :=
  pyEq_lawful_mutual.1 a b

instance : DecidableEq PyVal := fun a b =>
  decidable_of_iff (pyEq a b = true) (pyEq_iff a b)

lemma pyEq_eq_decide (a b : PyVal) : pyEq a b = decide (a = b) := by
  by_cases h : a = b
  · simp [h, (pyEq_iff b b).2 rfl]
  · have hne : pyEq a b ≠ true := fun hh => h ((pyEq_iff a b).1 hh)
    simp [h, Bool.eq_false_iff.mpr hne]

/-! ## Evaluation of tik_to_json on well-shaped sentences -/

lemma pyEq_str_str (a b : String) : pyEq (.str a) (.str b) = (a == b) := by
  simp [pyEq]

lemma getItem_list_zero (x : PyVal) (xs : List PyVal) :
    getItem (.list (x :: xs)) (.int 0) = .ok x := rfl

lemma getItem_tuple2_zero (a b : PyVal) :
    getItem (.tuple [a, b]) (.int 0) = .ok a := rfl

lemma getItem_tuple2_one (a b : PyVal) :
    getItem (.tuple [a, b]) (.int 1) = .ok b := rfl

lemma find?_attrs (a : Attrs) (k : String) :
    ((a.map fun p => (PyVal.str p.1, PyVal.str p.2)).find?
        fun p => pyEq p.1 (.str k)) =
      (a.find? fun p => p.1 == k).map
        fun p => (PyVal.str p.1, PyVal.str p.2) := by
  induction a with
  | nil => rfl
  | cons p rest ih =>
    simp only [List.map_cons, List.find?]
    rw [pyEq_str_str]
    cases h : p.1 == k
    · simp only [h, ih]
    · simp [h]

lemma getItem_attrsToPy (a : Attrs) (k : String) :
    getItem (attrsToPy a) (.str k) =
      match alookup a k with
      | some v => .ok (.str v)
      | Option.none => .error .keyError := by
  simp only [attrsToPy, getItem, hashable, if_true]
  rw [find?_attrs]
  unfold alookup
  cases h : a.find? fun p => p.1 == k <;> simp [h]

lemma any_attrs (a : Attrs) :
    ((a.map fun p => (PyVal.str p.1, PyVal.str p.2)).any
        fun p => pyEq p.1 (.str ".id")) =
      a.any fun p => p.1 == ".id" := by
  induction a with
  | nil => rfl
  | cons p rest ih => simp [pyEq_str_str, ih]

lemma hasIdKey_attrsToPy (a : Attrs) :
    hasIdKey (attrsToPy a) = .ok (a.any fun p => p.1 == ".id") := by
  simp only [attrsToPy, hasIdKey]
  rw [any_attrs]

lemma any_alookup (a : Attrs) (k : String) :
    (a.any fun p => p.1 == k) = (alookup a k).isSome := by
  induction a with
  | nil => rfl
  | cons p rest ih =>
    unfold alookup
    simp only [List.any_cons, List.find?]
    cases h : p.1 == k
    · simpa [alookup] using ih
    · simp

lemma tik_to_json_notScalar (s : Sentence) (h : notScalar s) :
    tik_to_json (sentenceToPy s) = tikMapping (sentenceToPy s) := by
  cases s with
  | nil => rfl
  | cons r rest =>
    obtain ⟨tag, a⟩ := r
    by_cases htag : tag = "!done"
    · subst htag
      rcases h with h | h
      · exact absurd rfl h
      · have hs : scalarStep (sentenceToPy (("!done", a) :: rest))
            = .error .keyError := by
          simp only [scalarStep, sentenceToPy, List.map_cons, recordToPy,
            getItem_list_zero, getItem_tuple2_zero, getItem_tuple2_one,
            pyEq_str_str, getItem_attrsToPy, h]
          simp
        simp [tik_to_json, hs]
    · have hs : scalarStep (sentenceToPy ((tag, a) :: rest))
          = .ok Option.none := by
        simp only [scalarStep, sentenceToPy, List.map_cons, recordToPy,
          getItem_list_zero, getItem_tuple2_zero, pyEq_str_str]
        simp [htag]
      simp [tik_to_json, hs]

lemma secondOfEach_sentence (s : Sentence) :
    secondOfEach (s.map recordToPy) = .ok (s.map fun r => attrsToPy r.2) := by
  induction s with
  | nil => rfl
  | cons r rest ih =>
    simp only [List.map_cons, secondOfEach, recordToPy, getItem_tuple2_one, ih]

lemma buildIdDict_sentence (s : Sentence) :
    ∀ acc : List (PyVal × PyVal),
      buildIdDict acc (s.map fun r => attrsToPy r.2) =
        .ok (((specAssoc s).map specPairPy).foldl
              (fun a p => dictInsert a p.1 p.2) acc) := by
  induction s with
  | nil => intro acc; rfl
  | cons r rest ih =>
    intro acc
    cases hid : alookup r.2 ".id" with
    | none =>
      have hany : (r.2.any fun p => p.1 == ".id") = false := by
        rw [any_alookup, hid]; rfl
      simp only [List.map_cons, buildIdDict, hasIdKey_attrsToPy, hany,
        Bool.false_eq_true, if_false, ih, specAssoc, List.filterMap_cons,
        hid]
      simp
    | some idv =>
      have hany : (r.2.any fun p => p.1 == ".id") = true := by
        rw [any_alookup, hid]; rfl
      have hget : getItem (attrsToPy r.2) (.str ".id") = .ok (.str idv) := by
        rw [getItem_attrsToPy, hid]
      simp only [List.map_cons, buildIdDict, hasIdKey_attrsToPy, hany,
        if_true, hget, slice1, hashable, ih, specAssoc, List.filterMap_cons,
        hid]
      simp [specPairPy]

lemma mappingStep_sentence (s : Sentence) :
    mappingStep (sentenceToPy s) = .ok (.dict (tikEntries s)) := by
  simp only [mappingStep, sentenceToPy, pyIter, secondOfEach_sentence,
    buildIdDict_sentence, tikEntries]

lemma tik_to_json_sentence (s : Sentence) (h : notScalar s) :
    tik_to_json (sentenceToPy s) = .ok (.dict (tikEntries s)) := by
  rw [tik_to_json_notScalar s h]
  simp only [tikMapping, mappingStep_sentence]

/-! ## Dict construction lemmas -/

lemma pyEq_comm (a b : PyVal) : pyEq a b = pyEq b a := by
  rw [pyEq_eq_decide, pyEq_eq_decide]
  exact decide_eq_decide.mpr eq_comm

lemma dictInsert_fresh (acc : List (PyVal × PyVal)) (k v : PyVal)
    (h : ∀ q ∈ acc, q.1 ≠ k) :
    dictInsert acc k v = acc ++ [(k, v)] := by
  unfold dictInsert
  have hany : (acc.any fun q => pyEq q.1 k) = false := by
    rw [List.any_eq_false]
    intro q hq
    rw [pyEq_eq_decide]
    simpa using h q hq
  simp [hany]

lemma foldl_dictInsert_nodup :
    ∀ (ps acc : List (PyVal × PyVal)),
      (∀ p ∈ ps, ∀ q ∈ acc, q.1 ≠ p.1) →
      (ps.map Prod.fst).Nodup →
      ps.foldl (fun a p => dictInsert a p.1 p.2) acc = acc ++ ps
  | [], acc, _, _ => by simp
  | p :: ps, acc, hfresh, hnd => by
    rw [List.foldl_cons,
      dictInsert_fresh acc p.1 p.2 fun q hq => hfresh p (by simp) q hq]
    rw [List.map_cons, List.nodup_cons] at hnd
    have hfresh2 : ∀ x ∈ ps, ∀ q ∈ acc ++ [(p.1, p.2)], q.1 ≠ x.1 := by
      intro x hx q hq
      rcases List.mem_append.mp hq with hq | hq
      · exact hfresh x (List.mem_cons_of_mem _ hx) q hq
      · have hq2 : q = (p.1, p.2) := by simpa using hq
        subst hq2
        intro hcon
        exact hnd.1 (by simpa [← hcon] using List.mem_map_of_mem Prod.fst hx)
    rw [foldl_dictInsert_nodup ps (acc ++ [(p.1, p.2)]) hfresh2 hnd.2]
    simp

lemma any_map_fst (acc : List (PyVal × PyVal)) (k : PyVal) :
    ((acc.map Prod.fst).any fun j => pyEq j k) =
      acc.any fun q => pyEq q.1 k := by
  induction acc with
  | nil => rfl
  | cons q rest ih => simp [ih]

lemma map_fst_dictInsert (acc : List (PyVal × PyVal)) (k v : PyVal) :
    (dictInsert acc k v).map Prod.fst =
      if acc.any fun q => pyEq q.1 k then acc.map Prod.fst
      else acc.map Prod.fst ++ [k] := by
  unfold dictInsert
  by_cases h : (acc.any fun q => pyEq q.1 k) = true
  · simp only [h, if_true, List.map_map]
    apply List.map_congr_left
    intro q hq
    by_cases hq2 : pyEq q.1 k = true <;> simp [hq2]
  · rw [Bool.not_eq_true] at h
    simp [h]

lemma foldl_dictInsert_keys :
    ∀ (ps acc : List (PyVal × PyVal)),
      (ps.foldl (fun a p => dictInsert a p.1 p.2) acc).map Prod.fst =
        (ps.map Prod.fst).foldl
          (fun ks k => if ks.any fun j => pyEq j k then ks else ks ++ [k])
          (acc.map Prod.fst)
  | [], acc => by simp
  | p :: ps, acc => by
    rw [List.foldl_cons, List.map_cons, List.foldl_cons,
      foldl_dictInsert_keys ps (dictInsert acc p.1 p.2),
      map_fst_dictInsert, any_map_fst]

lemma assocFind_append (xs ys : List (PyVal × PyVal)) (k : PyVal) :
    assocFind (xs ++ ys) k =
      match assocFind xs k with
      | some v => some v
      | Option.none => assocFind ys k := by
  unfold assocFind
  rw [List.find?_append]
  cases xs.find? fun p => pyEq p.1 k <;> simp [Option.or]

lemma assocFind_replace_present (k v j : PyVal) :
    ∀ acc : List (PyVal × PyVal),
      (acc.any fun q => pyEq q.1 k) = true →
      assocFind (acc.map fun q => if pyEq q.1 k then (q.1, v) else q) k =
        some v
  | q :: acc, hany => by
    by_cases hq : pyEq q.1 k = true
    · have hq2 : q.1 = k := (pyEq_iff q.1 k).1 hq
      simp [assocFind, List.find?, hq, hq2, (pyEq_iff k k).2 rfl]
    · rw [Bool.not_eq_true] at hq
      rw [List.any_cons, hq, Bool.false_or] at hany
      have ih := assocFind_replace_present k v j acc hany
      simpa [assocFind, List.find?, hq] using ih

lemma assocFind_replace_other (k v j : PyVal) (hjk : j ≠ k) :
    ∀ acc : List (PyVal × PyVal),
      assocFind (acc.map fun q => if pyEq q.1 k then (q.1, v) else q) j =
        assocFind acc j
  | [] => rfl
  | q :: acc => by
    have ih := assocFind_replace_other k v j hjk acc
    by_cases hq : pyEq q.1 k = true
    · have hq2 : q.1 = k := (pyEq_iff q.1 k).1 hq
      have hqj : pyEq q.1 j = false := by
        rw [pyEq_eq_decide, decide_eq_false_iff_not, hq2]
        exact fun hc => hjk hc.symm
      simpa [assocFind, List.find?, hq, hqj] using ih
    · rw [Bool.not_eq_true] at hq
      by_cases hqj : pyEq q.1 j = true
      · simp [assocFind, List.find?, hq, hqj]
      · rw [Bool.not_eq_true] at hqj
        simpa [assocFind, List.find?, hq, hqj] using ih

lemma assocFind_dictInsert (acc : List (PyVal × PyVal)) (k v j : PyVal) :
    assocFind (dictInsert acc k v) j =
      if pyEq j k then some v else assocFind acc j := by
  unfold dictInsert
  by_cases hpres : (acc.any fun q => pyEq q.1 k) = true
  · rw [if_pos hpres]
    by_cases hjk : j = k
    · subst hjk
      rw [assocFind_replace_present j v j acc hpres,
        if_pos ((pyEq_iff j j).2 rfl)]
    · have hb : pyEq j k = false := by
        rw [pyEq_eq_decide, decide_eq_false_iff_not]; exact hjk
      rw [assocFind_replace_other k v j hjk acc, hb]
      simp
  · rw [Bool.not_eq_true] at hpres
    rw [if_neg (by simp [hpres])]
    rw [assocFind_append]
    have hnone : assocFind acc k = Option.none := by
      unfold assocFind
      rw [List.find?_eq_none.2]
      · rfl
      · intro x hx
        have := List.any_eq_false.1 hpres x hx
        simpa using this
    by_cases hjk : j = k
    · subst hjk
      rw [hnone]
      simp [assocFind, List.find?, (pyEq_iff j j).2 rfl]
    · have hb : pyEq j k = false := by
        rw [pyEq_eq_decide, decide_eq_false_iff_not]; exact hjk
      have hkj : pyEq k j = false := by rw [pyEq_comm]; exact hb
      rw [hb]
      simp only [Bool.false_eq_true, if_false]
      cases hacc : assocFind acc j
      · simp [assocFind, List.find?, hkj]
      · simp

lemma lastBinding_nil (k : PyVal) : lastBinding [] k = Option.none := rfl

lemma lastBinding_cons (p : PyVal × PyVal) (ps : List (PyVal × PyVal))
    (k : PyVal) :
    lastBinding (p :: ps) k =
      match lastBinding ps k with
      | some v => some v
      | Option.none => if pyEq p.1 k then some p.2 else Option.none := by
  unfold lastBinding
  rw [List.reverse_cons, List.find?_append]
  cases ps.reverse.find? fun q => pyEq q.1 k
  · cases hp : pyEq p.1 k <;> simp [Option.or, List.find?, hp]
  · simp [Option.or]

lemma foldl_dictInsert_lookup :
    ∀ (ps acc : List (PyVal × PyVal)) (k : PyVal),
      assocFind (ps.foldl (fun a p => dictInsert a p.1 p.2) acc) k =
        match lastBinding ps k with
        | some v => some v
        | Option.none => assocFind acc k
  | [], acc, k => by rw [lastBinding_nil]; rfl
  | p :: ps, acc, k => by
    rw [List.foldl_cons, foldl_dictInsert_lookup ps (dictInsert acc p.1 p.2) k,
      lastBinding_cons, assocFind_dictInsert, pyEq_comm k p.1]
    cases lastBinding ps k
    · cases hp : pyEq p.1 k <;> simp [hp]
    · simp

/-! ## Candidate loop lemmas -/

lemma connect_socket_loop_found :
    ∀ (cands : List Candidate) (base : Option Sock) (c : Candidate),
      cands.find? candGood = some c →
      connect_socket_loop cands base =
        (cands.takeWhile (fun x => !candGood x) ++ [c],
         some { tls := false, isOpen := true })
  | [], _, c, h => by simp [List.find?] at h
  | x :: rest, base, c, h => by
    rw [List.find?] at h
    cases hg : candGood x
    · rw [hg] at h
      have ih := connect_socket_loop_found rest Option.none c h
      have hcg := hg
      unfold candGood at hcg
      unfold connect_socket_loop
      cases hcr : x.create_ok
      · simp [hcr, ih, List.takeWhile_cons, hg]
      · have hco : x.connect_ok = false := by
          rw [hcr] at hcg; simpa using hcg
        simp [hcr, hco, ih, List.takeWhile_cons, hg]
    · rw [hg] at h
      have hcx : c = x := by simpa using h.symm
      subst hcx
      have hcg := hg
      unfold candGood at hcg
      rw [Bool.and_eq_true] at hcg
      unfold connect_socket_loop
      simp [hcg.1, hcg.2, List.takeWhile_cons, hg]

lemma connect_socket_loop_exhausted :
    ∀ cands : List Candidate,
      cands.find? candGood = Option.none →
      connect_socket_loop cands Option.none = (cands, Option.none)
  | [], _ => rfl
  | x :: rest, h => by
    rw [List.find?] at h
    cases hg : candGood x
    · rw [hg] at h
      have ih := connect_socket_loop_exhausted rest h
      have hcg := hg
      unfold candGood at hcg
      unfold connect_socket_loop
      cases hcr : x.create_ok
      · simp [hcr, ih]
      · have hco : x.connect_ok = false := by
          rw [hcr] at hcg; simpa using hcg
        simp [hcr, hco, ih]
    · rw [hg] at h
      simp at h

lemma connect_socket_ok (st : SessionState) (cands : List Candidate)
    (c : Candidate) (h1 : truthyStr st.address = true)
    (h2 : truthyInt st.port = true)
    (h4 : cands.find? candGood = some c) :
    connect_socket st cands =
      (.ok (),
       { st with base_sock := some { tls := false, isOpen := true } },
       cands.takeWhile (fun x => !candGood x) ++ [c]) := by
  unfold connect_socket
  rw [h1, h2]
  simp only [Bool.not_true, Bool.false_eq_true, if_false,
    connect_socket_loop_found cands st.base_sock c h4]

lemma connect_socket_exhausted (st : SessionState) (cands : List Candidate)
    (h1 : truthyStr st.address = true) (h2 : truthyInt st.port = true)
    (h3 : st.base_sock = Option.none)
    (h4 : cands.find? candGood = Option.none) :
    connect_socket st cands =
      (.error (.clientError "could not open socket"),
       { st with base_sock := Option.none }, cands) := by
  unfold connect_socket
  rw [h1, h2, h3]
  simp only [Bool.not_true, Bool.false_eq_true, if_false,
    connect_socket_loop_exhausted cands h4]

/-! ## Claim theorems -/

/-- C1: for every login call, the send_plain_password flag passed to
the Protocol Engine login is exactly the disjunction of the active
stream being a TLS stream (it has a getpeercert attribute) and the
caller having set allow_insecure_auth_without_tls; it is true iff one
of the two holds and false iff both fail, covering all four
combinations. -/
theorem login_send_plain_password_policy (sock : Sock)
    (user password : String) (allow : Bool)
    (engineLogin : String → String → Bool → Except PyExc Unit) :
    (login sock user password allow engineLogin).2 =
      [⟨user, password, sock.tls || allow⟩] ∧
    ((sock.tls || allow) = true ↔ (sock.tls = true ∨ allow = true)) ∧
    ((sock.tls || allow) = false ↔ (sock.tls = false ∧ allow = false)) := by
  refine ⟨?_, by simp, by simp⟩
  simp only [login, hasattr_getpeercert]
  cases engineLogin user password (sock.tls || allow)
  · rename_i e
    cases e <;> rfl
  · rfl

/-- C2 counterexample: on the Windows host branch with the default
constructor flags (verify_cert and verify_addr both true) the
handshake context keeps certificate chain validation at CERT_REQUIRED
and hostname checking enabled, so verification is not disabled
regardless of the flags on every OS branch. -/
theorem ssl_context_windows_keeps_verification :
    (ssl_client_context true true true).verify_mode =
      VerifyMode.cert_required ∧
    (ssl_client_context true true true).check_hostname = true :=
  ⟨rfl, rfl⟩

/-- C2 (amended): an anonymous Diffie-Hellman cipher suite is
requested on both host OS branches; on the non-Windows branch chain
validation and hostname verification are disabled unconditionally,
while on the Windows branch chain validation is relaxed only when
verify_cert is false and hostname checking is disabled only when
verify_addr is false. -/
theorem ssl_context_branch_behavior (vc va : Bool) :
    ssl_client_context false vc va =
      { verify_mode := .cert_optional, check_hostname := false,
        ciphers := "ADH" } ∧
    (ssl_client_context true vc va).ciphers = "ADH:@SECLEVEL=0" ∧
    (ssl_client_context true vc va).verify_mode =
      (if vc then VerifyMode.cert_required else VerifyMode.cert_optional) ∧
    (ssl_client_context true vc va).check_hostname = va := by
  refine ⟨rfl, ?_, ?_, ?_⟩ <;> cases vc <;> cases va <;> rfl

/-- C3 counterexample: with one good resolver candidate and a failing
TLS handshake, the secure connect fails with the message
"could not establish SSL connection" rather than the claimed
"could not establish secure connection", and the session still holds
the connected base socket open afterwards rather than being in a
Disconnected-equivalent state. -/
theorem ssl_connect_failure_counterexample :
    ssl_connect
        { address := some "203.0.113.9", port := some 8729,
          base_sock := Option.none, sock := Option.none }
        [{ create_ok := true, connect_ok := true }] false =
      (.error (.clientError "could not establish SSL connection"),
       { address := some "203.0.113.9", port := some 8729,
         base_sock := some { tls := false, isOpen := true },
         sock := Option.none }) ∧
    "could not establish SSL connection" ≠
      "could not establish secure connection" :=
  ⟨rfl, by decide⟩

/-- C3 (amended): for every TLS handshake failure during the secure
client connect (the base socket having connected), the call fails
with ClientError "could not establish SSL connection" (the spec
taxonomy ConnectError), and the session is not left in a
Disconnected-equivalent state: the connected base socket remains
stored open in the session. -/
theorem ssl_connect_handshake_failure (st : SessionState)
    (cands : List Candidate) (c : Candidate)
    (h1 : truthyStr st.address = true) (h2 : truthyInt st.port = true)
    (h3 : cands.find? candGood = some c) :
    ssl_connect st cands false =
      (.error (.clientError "could not establish SSL connection"),
       { st with base_sock := some { tls := false, isOpen := true } }) := by
  unfold ssl_connect
  rw [connect_socket_ok st cands c h1 h2 h3]
  rfl

/-- C3 witness. -/
theorem ssl_connect_handshake_failure_witness :
    ssl_connect exampleState [{ create_ok := true, connect_ok := true }]
        false =
      (.error (.clientError "could not establish SSL connection"),
       { exampleState with
           base_sock := some { tls := false, isOpen := true } }) :=
  ssl_connect_handshake_failure exampleState
    [{ create_ok := true, connect_ok := true }]
    { create_ok := true, connect_ok := true } rfl rfl rfl

/-- C7: a talk argument that is not a list, or that contains a
non-string element, fails with
ValueError "words needs to be a list of strings" (the spec taxonomy
InvalidArgument) and the Protocol Engine talk is never invoked: the
recorded invocation trace is empty, so no I/O is attempted. -/
theorem talk_invalid_input_no_io
    (engineTalk : List String → Except PyExc PyVal) (words : PyVal)
    (h : (∀ xs, words ≠ PyVal.list xs) ∨
         ∃ xs, words = PyVal.list xs ∧ ∃ x ∈ xs, isStr x = false) :
    talk engineTalk words =
      (.error (.valueError "words needs to be a list of strings"), []) := by
  rcases h with h | ⟨xs, rfl, x, hx, hxs⟩
  · cases words with
    | list xs => exact absurd rfl (h xs)
    | str s => rfl
    | int n => rfl
    | pynone => rfl
    | tuple xs => rfl
    | dict es => rfl
  · have hall : xs.all isStr = false := by
      rw [List.all_eq_false]
      exact ⟨x, hx, by simp [hxs]⟩
    simp [talk, hall]

/-- C7 witness. -/
theorem talk_invalid_input_no_io_witness :
    talk (fun _ => .ok (.list [])) (PyVal.int 3) =
      (.error (.valueError "words needs to be a list of strings"), []) ∧
    talk (fun _ => .ok (.list [])) (PyVal.list [.str "a", .int 2]) =
      (.error (.valueError "words needs to be a list of strings"), []) :=
  ⟨talk_invalid_input_no_io _ _ (Or.inl fun xs h => nomatch h),
   talk_invalid_input_no_io _ _
     (Or.inr ⟨[.str "a", .int 2], rfl, .int 2, by simp, rfl⟩)⟩

/-- C8: assigning an integer port outside 1..65535 fails with
ValueError "invalid port number specified" (the spec taxonomy
ConfigError) and leaves the whole state, in particular the stored
port, unchanged; an assignment inside 1..65535 stores the port; in
both cases no socket field is touched, so no socket is opened. -/
theorem port_setter_range (st : SessionState) (v : Int) :
    ((v ≤ 0 ∨ 65536 ≤ v) →
      port_setter st v =
        (.error (.valueError "invalid port number specified"), st)) ∧
    ((0 < v ∧ v < 65536) →
      port_setter st v = (.ok (), { st with port := some v })) ∧
    (port_setter st v).2.base_sock = st.base_sock ∧
    (port_setter st v).2.sock = st.sock := by
  refine ⟨?_, ?_, ?_, ?_⟩
  · intro h
    have hn : ¬(0 < v ∧ v < 65536) := by omega
    simp [port_setter, hn]
  · intro h
    simp [port_setter, h]
  · unfold port_setter
    by_cases h : 0 < v ∧ v < 65536 <;> simp [h]
  · unfold port_setter
    by_cases h : 0 < v ∧ v < 65536 <;> simp [h]

/-- C8 witness: both boundary values fail and leave the state
unchanged, an in-range value is stored. -/
theorem port_setter_range_witness :
    port_setter exampleState 0 =
      (.error (.valueError "invalid port number specified"),
       exampleState) ∧
    port_setter exampleState 65536 =
      (.error (.valueError "invalid port number specified"),
       exampleState) ∧
    port_setter exampleState 8729 =
      (.ok (), { exampleState with port := some 8729 }) :=
  ⟨(port_setter_range exampleState 0).1 (by omega),
   (port_setter_range exampleState 65536).1 (by omega),
   (port_setter_range exampleState 8729).2.1 (by omega)⟩

/-- C9: with address and port configured and no stale socket, the
resolver candidates are tried in resolver-returned order: every
failing candidate up to the first fully successful one is attempted
and discarded, iteration stops at the first success and the connected
socket is stored; if every candidate fails, the call fails with
ClientError "could not open socket" (the spec taxonomy ConnectError)
after trying all candidates, and no socket is retained. -/
theorem connect_socket_candidate_iteration (st : SessionState)
    (cands : List Candidate)
    (h1 : truthyStr st.address = true) (h2 : truthyInt st.port = true)
    (h3 : st.base_sock = Option.none) :
    (∀ c, cands.find? candGood = some c →
      connect_socket st cands =
        (.ok (),
         { st with base_sock := some { tls := false, isOpen := true } },
         cands.takeWhile (fun x => !candGood x) ++ [c])) ∧
    (cands.find? candGood = Option.none →
      connect_socket st cands =
        (.error (.clientError "could not open socket"),
         { st with base_sock := Option.none }, cands)) :=
  ⟨fun c hc => connect_socket_ok st cands c h1 h2 hc,
   fun hn => connect_socket_exhausted st cands h1 h2 h3 hn⟩

/-- C9 witness: two failing candidates are tried and discarded before
the third succeeds; a candidate list that fails throughout raises the
socket error with all candidates tried. -/
theorem connect_socket_candidate_iteration_witness :
    connect_socket exampleState
        [{ create_ok := false, connect_ok := true },
         { create_ok := true, connect_ok := false },
         { create_ok := true, connect_ok := true }] =
      (.ok (),
       { exampleState with
           base_sock := some { tls := false, isOpen := true } },
       [{ create_ok := false, connect_ok := true },
        { create_ok := true, connect_ok := false },
        { create_ok := true, connect_ok := true }]) ∧
    connect_socket exampleState [{ create_ok := true, connect_ok := false }] =
      (.error (.clientError "could not open socket"),
       { exampleState with base_sock := Option.none },
       [{ create_ok := true, connect_ok := false }]) :=
  ⟨(connect_socket_candidate_iteration exampleState _ rfl rfl rfl).1
      { create_ok := true, connect_ok := true } rfl,
   (connect_socket_candidate_iteration exampleState _ rfl rfl rfl).2 rfl⟩

/-- C4 counterexample: a first record of the wrong shape (the integer
5, which is not subscriptable) does not fall through silently: the
scalar check raises an uncaught TypeError, whereas a fall-through to
the mapping branch would have produced that branch's ClientError. -/
theorem tik_to_json_first_record_counterexample :
    tik_to_json (.list [.int 5]) = .error .typeError ∧
    tikMapping (.list [.int 5]) =
      .error (.clientError "unable to convert api output to json") :=
  ⟨rfl, rfl⟩

/-- C4 (amended): when the first record is tagged with the done tag
and its attribute record carries a ret attribute, tik_to_json returns
that attribute's value as a scalar; an empty sentence or a missing
ret key raises IndexError or KeyError, which is silently swallowed
and evaluation falls through to the mapping branch; but a first
record that does not support subscripting (an integer) raises an
uncaught TypeError at this step instead of falling through. -/
theorem tik_to_json_scalar_branch (a : Attrs) (rest : Sentence)
    (v : String) (n : Int) (rest2 : List PyVal) :
    (alookup a "ret" = some v →
      tik_to_json (sentenceToPy (("!done", a) :: rest)) = .ok (.str v)) ∧
    (alookup a "ret" = Option.none →
      tik_to_json (sentenceToPy (("!done", a) :: rest)) =
        tikMapping (sentenceToPy (("!done", a) :: rest))) ∧
    tik_to_json (sentenceToPy ([] : Sentence)) =
      tikMapping (sentenceToPy ([] : Sentence)) ∧
    tik_to_json (.list (.int n :: rest2)) = .error .typeError := by
  refine ⟨?_, ?_, rfl, rfl⟩
  · intro h
    have hs : scalarStep (sentenceToPy (("!done", a) :: rest))
        = .ok (some (.str v)) := by
      simp only [scalarStep, sentenceToPy, List.map_cons, recordToPy,
        getItem_list_zero, getItem_tuple2_zero, getItem_tuple2_one,
        pyEq_str_str, getItem_attrsToPy, h]
      simp
    simp [tik_to_json, hs]
  · intro h
    exact tik_to_json_notScalar (("!done", a) :: rest) (Or.inr h)

/-- C4 witness: the scalar short-circuit on a concrete done sentence,
and the silent fall-through on a concrete sentence missing ret. -/
theorem tik_to_json_scalar_branch_witness :
    tik_to_json (sentenceToPy [("!done", [("ret", "42")])]) =
      .ok (.str "42") ∧
    tik_to_json (sentenceToPy [("!done", [("x", "1")])]) =
      tikMapping (sentenceToPy [("!done", [("x", "1")])]) :=
  ⟨(tik_to_json_scalar_branch [("ret", "42")] [] "42" 0 []).1 rfl,
   (tik_to_json_scalar_branch [("x", "1")] [] "" 0 []).2.1 rfl⟩

/-- C5: for a sentence not taken by the scalar branch whose stripped
identifiers are pairwise distinct, tik_to_json returns exactly the
mapping the spec describes: one entry per record having a .id
attribute, keyed by the .id value with its first character stripped
and valued by the full attribute record, in sentence order; records
lacking .id are excluded. -/
theorem tik_to_json_mapping_spec (s : Sentence) (h1 : notScalar s)
    (h2 : ((specAssoc s).map fun p => p.1).Nodup) :
    tik_to_json (sentenceToPy s) =
      .ok (.dict ((specAssoc s).map specPairPy)) := by
  rw [tik_to_json_sentence s h1]
  unfold tikEntries
  have hnd : (((specAssoc s).map specPairPy).map Prod.fst).Nodup := by
    have hmm : ((specAssoc s).map specPairPy).map Prod.fst =
        ((specAssoc s).map fun p => p.1).map PyVal.str := by
      simp only [List.map_map]
      rfl
    rw [hmm]
    exact h2.map fun a b hab => PyVal.str.inj hab
  rw [foldl_dictInsert_nodup ((specAssoc s).map specPairPy) []
      (fun p _ q hq => absurd hq (List.not_mem_nil q)) hnd]
  simp

/-- C5 witness: the spec's mapping scenario with two identified
records and a trailing done record. -/
theorem tik_to_json_mapping_spec_witness :
    tik_to_json (sentenceToPy
        [("!re", [(".id", "*1"), ("name", "eth0")]),
         ("!re", [(".id", "*2"), ("name", "eth1")]),
         ("!done", [])]) =
      .ok (.dict ((specAssoc
        [("!re", [(".id", "*1"), ("name", "eth0")]),
         ("!re", [(".id", "*2"), ("name", "eth1")]),
         ("!done", [])]).map specPairPy)) ∧
    (specAssoc
        [("!re", [(".id", "*1"), ("name", "eth0")]),
         ("!re", [(".id", "*2"), ("name", "eth1")]),
         ("!done", [])]).map specPairPy =
      [(.str "1", attrsToPy [(".id", "*1"), ("name", "eth0")]),
       (.str "2", attrsToPy [(".id", "*2"), ("name", "eth1")])] :=
  ⟨tik_to_json_mapping_spec _ (by simp only [notScalar]; decide)
      (by decide),
   rfl⟩

/-- C6 counterexample: a sentence whose record value is a plain
string reaches the mapping step and cannot proceed structurally
there, yet the failure escapes as an AttributeError (the value has no
keys method), not as the claimed ClientError. -/
theorem tik_to_json_attribute_error_escape :
    tik_to_json (.list [.tuple [.str "!re", .str "ab"]]) =
      .error .attributeError ∧
    PyExc.attributeError ≠
      PyExc.clientError "unable to convert api output to json" :=
  ⟨rfl, by decide⟩

/-- C6 (amended): when the scalar step falls through and the mapping
step fails with TypeError or IndexError, tik_to_json fails with
ClientError "unable to convert api output to json"; a mapping-step
AttributeError (a record value without a keys method) escapes
untranslated instead. -/
theorem tik_to_json_mapping_error_translation (t : PyVal)
    (hfall : scalarStep t = .ok Option.none ∨
             scalarStep t = .error .indexError ∨
             scalarStep t = .error .keyError) :
    ((mappingStep t = .error .typeError ∨
      mappingStep t = .error .indexError) →
      tik_to_json t =
        .error (.clientError "unable to convert api output to json")) ∧
    (mappingStep t = .error .attributeError →
      tik_to_json t = .error .attributeError) := by
  have hdisp : tik_to_json t = tikMapping t := by
    rcases hfall with h | h | h <;> simp [tik_to_json, h]
  constructor
  · intro hm
    rcases hm with hm | hm <;> simp [hdisp, tikMapping, hm]
  · intro hm
    simp [hdisp, tikMapping, hm]

/-- C6 witness: a short record raises IndexError in the mapping step
and is translated to the ClientError; a record with a non-mapping
value raises AttributeError and escapes. -/
theorem tik_to_json_mapping_error_translation_witness :
    tik_to_json (.list [.tuple [.str "a"]]) =
      .error (.clientError "unable to convert api output to json") ∧
    tik_to_json (.list [.tuple [.str "x", .int 3]]) =
      .error .attributeError :=
  ⟨(tik_to_json_mapping_error_translation (.list [.tuple [.str "a"]])
      (Or.inl rfl)).1 (Or.inr rfl),
   (tik_to_json_mapping_error_translation
      (.list [.tuple [.str "x", .int 3]]) (Or.inl rfl)).2 rfl⟩

/-- C10: for every sentence not taken by the scalar branch,
tik_to_json builds a dict in which every key is bound to the
attribute record of the last record whose stripped .id equals that
key, while the key keeps the position of its first appearance; in
particular, with two or more records sharing a stripped .id the later
record overwrites the earlier one in place. -/
theorem tik_to_json_duplicate_ids (s : Sentence) (h : notScalar s) :
    tik_to_json (sentenceToPy s) = .ok (.dict (tikEntries s)) ∧
    (tikEntries s).map Prod.fst =
      firstKeys (((specAssoc s).map specPairPy).map Prod.fst) ∧
    ∀ k, assocFind (tikEntries s) k =
      lastBinding ((specAssoc s).map specPairPy) k := by
  refine ⟨tik_to_json_sentence s h, ?_, ?_⟩
  · unfold tikEntries firstKeys
    rw [foldl_dictInsert_keys]
    rfl
  · intro k
    unfold tikEntries
    rw [foldl_dictInsert_lookup]
    cases lastBinding ((specAssoc s).map specPairPy) k <;>
      simp [assocFind]

/-- C10 witness: two records stripping to the same key produce a
single entry holding the later attribute record. -/
theorem tik_to_json_duplicate_ids_witness :
    tik_to_json (sentenceToPy
        [("!re", [(".id", "*1"), ("name", "a")]),
         ("!re", [(".id", "*1"), ("name", "b")])]) =
      .ok (.dict (tikEntries
        [("!re", [(".id", "*1"), ("name", "a")]),
         ("!re", [(".id", "*1"), ("name", "b")])])) ∧
    assocFind (tikEntries
        [("!re", [(".id", "*1"), ("name", "a")]),
         ("!re", [(".id", "*1"), ("name", "b")])]) (.str "1") =
      lastBinding ((specAssoc
        [("!re", [(".id", "*1"), ("name", "a")]),
         ("!re", [(".id", "*1"), ("name", "b")])]).map specPairPy)
        (.str "1") ∧
    tikEntries
        [("!re", [(".id", "*1"), ("name", "a")]),
         ("!re", [(".id", "*1"), ("name", "b")])] =
      [(.str "1", attrsToPy [(".id", "*1"), ("name", "b")])] :=
  ⟨(tik_to_json_duplicate_ids _ (by simp only [notScalar]; decide)).1,
   (tik_to_json_duplicate_ids _ (by simp only [notScalar]; decide)).2.2
      (.str "1"),
   rfl⟩
